import Mathlib

/-!
Verification development for the mcp-cloud-orchestrator placement and
resource-bookkeeping core.  The Python services are embedded shallowly:
JSON-file-backed dictionaries become association lists, async functions
become pure state-passing functions, `datetime.now()` and the random
fallback choice become explicit parameters, and the external collaborators
(capacity feed, deployment engine, network probes) become input values
describing their observed outcome.
-/

namespace MCP

/-! ### Association lists with Python-dict update semantics -/

/-- First-match lookup, mirroring Python dict access (keys are unique in a
Python dict, so first match is the match). -/
def alookup {α β : Type} [DecidableEq α] : List (α × β) → α → Option β
  | [], _ => none
  | (k, v) :: t, key => if k = key then some v else alookup t key

/-- `d[key] = v`: replace in place if the key exists, else append. -/
def aset {α β : Type} [DecidableEq α] : List (α × β) → α → β → List (α × β)
  | [], key, v => [(key, v)]
  | (k, w) :: t, key, v => if k = key then (key, v) :: t else (k, w) :: aset t key v

/-- `d.pop(key)`: drop every pair with that key (a Python dict holds at most one). -/
def aremove {α β : Type} [DecidableEq α] : List (α × β) → α → List (α × β)
  | [], _ => []
  | (k, v) :: t, key => if k = key then aremove t key else (k, v) :: aremove t key

theorem alookup_aset_self {α β : Type} [DecidableEq α] (l : List (α × β)) (k : α) (v : β) :
    alookup (aset l k v) k = some v := by
  induction l with
  | nil => simp [aset, alookup]
  | cons p t ih =>
    obtain ⟨k', w⟩ := p
    by_cases h : k' = k <;> simp [aset, alookup, h, ih]

theorem alookup_aset_ne {α β : Type} [DecidableEq α] (l : List (α × β)) (k k' : α) (v : β)
    (h : k' ≠ k) : alookup (aset l k v) k' = alookup l k' := by
  have hk : k ≠ k' := Ne.symm h
  induction l with
  | nil => simp [aset, alookup, hk]
  | cons p t ih =>
    obtain ⟨k0, w⟩ := p
    by_cases h0 : k0 = k
    · subst h0
      simp [aset, alookup, hk]
    · by_cases h1 : k0 = k' <;> simp [aset, alookup, h0, h1, ih, h]

theorem aset_lookup_self {α β : Type} [DecidableEq α] (l : List (α × β)) (k : α) (v : β)
    (h : alookup l k = some v) : aset l k v = l := by
  induction l with
  | nil => simp [alookup] at h
  | cons p t ih =>
    obtain ⟨k0, w⟩ := p
    by_cases h0 : k0 = k
    · subst h0
      simp [alookup] at h
      simp [aset, h]
    · simp [alookup, h0] at h
      simp [aset, h0, ih h]

theorem aset_aset {α β : Type} [DecidableEq α] (l : List (α × β)) (k : α) (v w : β) :
    aset (aset l k v) k w = aset l k w := by
  induction l with
  | nil => simp [aset]
  | cons p t ih =>
    obtain ⟨k0, u⟩ := p
    by_cases h0 : k0 = k <;> simp [aset, h0, ih]

theorem mem_aset {α β : Type} [DecidableEq α] (l : List (α × β)) (k : α) (v : β) (p : α × β)
    (h : p ∈ aset l k v) : p = (k, v) ∨ p ∈ l := by
  induction l with
  | nil => simpa [aset] using h
  | cons q t ih =>
    obtain ⟨k0, u⟩ := q
    by_cases h0 : k0 = k
    · subst h0
      simp [aset] at h
      rcases h with h | h
      · exact Or.inl (by simp [h])
      · exact Or.inr (by simp [h])
    · simp [aset, h0] at h
      rcases h with h | h
      · exact Or.inr (by simp [h])
      · rcases ih h with h1 | h1
        · exact Or.inl h1
        · exact Or.inr (by simp [h1])

theorem alookup_mem {α β : Type} [DecidableEq α] (l : List (α × β)) (k : α) (v : β)
    (h : alookup l k = some v) : (k, v) ∈ l := by
  induction l with
  | nil => simp [alookup] at h
  | cons p t ih =>
    obtain ⟨k0, u⟩ := p
    by_cases h0 : k0 = k
    · subst h0
      simp [alookup] at h
      simp [h]
    · simp [alookup, h0] at h
      simp [ih h]

theorem alookup_aremove_self {α β : Type} [DecidableEq α] (l : List (α × β)) (k : α) :
    alookup (aremove l k) k = none := by
  induction l with
  | nil => simp [aremove, alookup]
  | cons p t ih =>
    obtain ⟨k0, u⟩ := p
    by_cases h0 : k0 = k <;> simp [aremove, h0, alookup, ih]

theorem alookup_aremove_ne {α β : Type} [DecidableEq α] (l : List (α × β)) (k k' : α)
    (h : k' ≠ k) : alookup (aremove l k) k' = alookup l k' := by
  induction l with
  | nil => simp [aremove, alookup]
  | cons p t ih =>
    obtain ⟨k0, u⟩ := p
    by_cases h0 : k0 = k
    · subst h0
      simp [aremove, alookup, Ne.symm h, ih]
    · by_cases h1 : k0 = k' <;> simp [aremove, alookup, h0, h1, ih, h]

theorem aremove_aset_self {α β : Type} [DecidableEq α] (l : List (α × β)) (k : α) (v : β) :
    aremove (aset l k v) k = aremove l k := by
  induction l with
  | nil => simp [aset, aremove]
  | cons p t ih =>
    obtain ⟨k0, u⟩ := p
    by_cases h0 : k0 = k <;> simp [aset, aremove, h0, ih]

theorem aremove_of_alookup_none {α β : Type} [DecidableEq α] (l : List (α × β)) (k : α)
    (h : alookup l k = none) : aremove l k = l := by
  induction l with
  | nil => simp [aremove]
  | cons p t ih =>
    obtain ⟨k0, u⟩ := p
    by_cases h0 : k0 = k
    · subst h0
      simp [alookup] at h
    · simp [alookup, h0] at h
      simp [aremove, h0, ih h]

/-! ### Resource ledger: quota sub-ledger (`quota_service.py`) -/

/-- Embeds `models/user.py` `UserQuota` (Python ints). -/
structure UserQuota where
  max_instances : Int
  max_cpu : Int
  max_memory : Int
  used_instances : Int
  used_cpu : Int
  used_memory : Int
  deriving DecidableEq, Repr

/-- The users store behind `auth_service`: user id to quota (the only user
field the quota service reads or writes). -/
abbrev Users := List (String × UserQuota)

/-- Embeds `QuotaService.check_quota`: every branch returns `allowed: True`
(usage-based billing, no cap enforced). -/
def check_quota (users : Users) (user_id : String) : Bool :=
  match alookup users user_id with
  | none => true
  | some _ => true

/-- Embeds `QuotaService.allocate_resources`: increments the three used
counters, no-op returning `false` when the user does not exist. -/
def allocate_resources (users : Users) (user_id : String) (cpu memory : Int) :
    Users × Bool :=
  match alookup users user_id with
  | none => (users, false)
  | some u =>
    (aset users user_id
      { u with
        used_instances := u.used_instances + 1
        used_cpu := u.used_cpu + cpu
        used_memory := u.used_memory + memory }, true)

/-- Embeds `QuotaService.release_resources`: decrements the three used
counters clamped at zero, no-op returning `false` when the user does not
exist. -/
def release_resources (users : Users) (user_id : String) (cpu memory : Int) :
    Users × Bool :=
  match alookup users user_id with
  | none => (users, false)
  | some u =>
    (aset users user_id
      { u with
        used_instances := max 0 (u.used_instances - 1)
        used_cpu := max 0 (u.used_cpu - cpu)
        used_memory := max 0 (u.used_memory - memory) }, true)

/-- All three used counters of every stored user are non-negative. -/
def usersNonneg (users : Users) : Prop :=
  ∀ p ∈ users, 0 ≤ p.2.used_instances ∧ 0 ≤ p.2.used_cpu ∧ 0 ≤ p.2.used_memory

instance (users : Users) : Decidable (usersNonneg users) := by
  unfold usersNonneg
  infer_instance

/-- One call against the quota sub-ledger. -/
inductive QuotaOp where
  | alloc (user_id : String) (cpu memory : Int)
  | release (user_id : String) (cpu memory : Int)
  deriving DecidableEq, Repr

def applyQuotaOp (users : Users) : QuotaOp → Users
  | .alloc uid c m => (allocate_resources users uid c m).1
  | .release uid c m => (release_resources users uid c m).1

def applyQuotaOps (users : Users) (ops : List QuotaOp) : Users :=
  ops.foldl applyQuotaOp users

/-- Requests carry non-negative amounts (the API layer validates
`cpu ∈ [1,8]`, `memory ∈ [1,32]`); releases are unconstrained. -/
def opNonneg : QuotaOp → Prop
  | .alloc _ c m => 0 ≤ c ∧ 0 ≤ m
  | .release _ _ _ => True

instance (op : QuotaOp) : Decidable (opNonneg op) := by
  cases op <;> unfold opNonneg <;> infer_instance

/-! ### Resource ledger: port sub-ledger (`port_allocator.py`) -/

def PORT_START : Int := 8000

def PORT_END : Int := 9999

/-- The persisted shape of `port_allocations.json`: per-node map from
instance id to port, plus the per-node running high-water mark. -/
structure PortData where
  allocations : List (String × List (String × Int))
  nextPortPerNode : List (String × Int)
  deriving DecidableEq, Repr

/-- The `while port in used_ports and port <= self.PORT_END: port += 1`
loop.  The fuel argument is structural bookkeeping only: `allocate_port`
passes enough for the loop to run to its real exit condition. -/
def scanUpFuel (used : List Int) : Nat → Int → Int
  | 0, port => port
  | fuel + 1, port =>
    if port ∈ used ∧ port ≤ PORT_END then scanUpFuel used fuel (port + 1) else port

/-- The bottom re-scan `for p in range(8000, 10000): if p not in used_ports`. -/
def scanBottom (used : List Int) : Option Int :=
  (((List.range 2000).map (fun i => PORT_START + (i : Int))).find?
    (fun p => !(used.contains p)))

/-- Embeds `PortAllocator.allocate_port`.  Scans upward from the node's
high-water mark skipping live ports; past `PORT_END` it re-scans from the
bottom for a freed gap; `none` models the uncaught `ValueError` when the
whole range is exhausted (the file is not rewritten in that case). -/
def allocate_port (d : PortData) (node_id instance_id : String) :
    Option (PortData × Int) :=
  let next := (alookup d.nextPortPerNode node_id).getD PORT_START
  let allocs := (alookup d.allocations node_id).getD []
  let used := allocs.map Prod.snd
  let port := scanUpFuel used (PORT_END + 2 - next).toNat next
  if port ≤ PORT_END then
    some (⟨aset d.allocations node_id (aset allocs instance_id port),
           aset d.nextPortPerNode node_id (port + 1)⟩, port)
  else
    match scanBottom used with
    | none => none
    | some p =>
      some (⟨aset d.allocations node_id (aset allocs instance_id p),
             aset d.nextPortPerNode node_id (p + 1)⟩, p)

/-- Embeds `PortAllocator.release_port`: pops the instance's mapping and
returns the freed port, or returns `none` leaving the store untouched.
The high-water mark is not moved. -/
def release_port (d : PortData) (node_id instance_id : String) :
    PortData × Option Int :=
  match alookup d.allocations node_id with
  | none => (d, none)
  | some allocs =>
    match alookup allocs instance_id with
    | none => (d, none)
    | some port =>
      (⟨aset d.allocations node_id (aremove allocs instance_id),
        d.nextPortPerNode⟩, some port)

/-- The port an instance holds on a node, read off the persisted store. -/
def portOf (d : PortData) (node_id instance_id : String) : Option Int :=
  match alookup d.allocations node_id with
  | none => none
  | some allocs => alookup allocs instance_id

/-! ### Node registry and capacity feed (`models/node.py`, `ray_service.py`) -/

inductive NodeRole where
  | master
  | worker
  | storage
  deriving DecidableEq, Repr

/-- The registry fields the scheduler reads. -/
structure NodeInfo where
  id : String
  tailscale_ip : String
  role : NodeRole
  deriving DecidableEq, Repr

/-- One entry of `RayService.get_nodes_with_available_resources()`:
address plus available cpu / memory-GB. -/
structure RayNode where
  node_ip : String
  cpu_available : Int
  memory_available_gb : Int
  deriving DecidableEq, Repr

/-- `worker_by_ip[ip]` — a dict comprehension, so a duplicated address is
won by the last worker listed. -/
def workerByIp (workers : List NodeInfo) (ip : String) : Option NodeInfo :=
  (workers.filter (fun w => w.tailscale_ip = ip)).getLast?

/-- One surviving candidate: the registered worker, with the feed's
available cpu and memory for its address. -/
structure Capable where
  worker : NodeInfo
  cpu_available : Int
  memory_available : Int
  deriving DecidableEq, Repr

/-- The `capable_workers` list: feed entries, in feed order, whose address
belongs to a registered worker and which satisfy the request. -/
def buildCapable (workers : List NodeInfo) (ray : List RayNode)
    (reqCpu reqMem : Int) : List Capable :=
  ray.filterMap (fun r =>
    match workerByIp workers r.node_ip with
    | none => none
    | some w =>
      if reqCpu ≤ r.cpu_available ∧ reqMem ≤ r.memory_available_gb then
        some ⟨w, r.cpu_available, r.memory_available_gb⟩
      else none)

/-- Python's `max(xs, key=...)` keeps the current best and replaces it only
on a strictly greater key, so the first maximal element wins. -/
def pyFold {α : Type} (key : α → Int) (b : α) (l : List α) : α :=
  l.foldl (fun best a => if key best < key a then a else best) b

def pyMaxBy {α : Type} (key : α → Int) : List α → Option α
  | [] => none
  | x :: xs => some (pyFold key x xs)

/-- `max_cpu` over worker-mapped feed entries, starting at 0. -/
def feedMaxCpu (workers : List NodeInfo) (ray : List RayNode) : Int :=
  ray.foldl
    (fun m r => if (workerByIp workers r.node_ip).isSome then max m r.cpu_available else m) 0

/-- `max_mem` over worker-mapped feed entries, starting at 0. -/
def feedMaxMem (workers : List NodeInfo) (ray : List RayNode) : Int :=
  ray.foldl
    (fun m r => if (workerByIp workers r.node_ip).isSome then max m r.memory_available_gb else m) 0

inductive SelectResult where
  | ok (node_id : String)
  | noWorkers
  | insufficient (requested_cpu requested_memory max_cpu max_memory : Int)
  deriving DecidableEq, Repr

/-- Embeds `InstanceManager._select_node_with_capacity`.  `feed = some ray`
is a capacity query that returned `ray`; `feed = none` is a query that
raised, which the code answers with `random.choice(workers)` — modelled by
the `pick` index into the worker list. -/
def select_node (nodes : List NodeInfo) (feed : Option (List RayNode))
    (pick : Nat) (reqCpu reqMem : Int) : SelectResult :=
  match nodes.filter (fun n => decide (n.role = NodeRole.worker)) with
  | [] => SelectResult.noWorkers
  | w :: ws =>
    match feed with
    | none =>
      SelectResult.ok
        (((w :: ws).get ⟨pick % (w :: ws).length, Nat.mod_lt pick (Nat.succ_pos ws.length)⟩).id)
    | some ray =>
      let capable := buildCapable (w :: ws) ray reqCpu reqMem
      match pyMaxBy (fun c => c.cpu_available) capable with
      | some best => SelectResult.ok best.worker.id
      | none =>
        SelectResult.insufficient reqCpu reqMem
          (feedMaxCpu (w :: ws) ray) (feedMaxMem (w :: ws) ray)

/-! ### Cluster aggregator (`models/cluster.py`) -/

inductive ClusterHealth where
  | healthy
  | degraded
  | critical
  | offline
  deriving DecidableEq, Repr

/-- Python's `round` on an exact value: nearest integer, halves to even. -/
def roundHalfEven (q : ℚ) : Int :=
  if q - ⌊q⌋ < 1 / 2 then ⌊q⌋
  else if 1 / 2 < q - ⌊q⌋ then ⌊q⌋ + 1
  else if ⌊q⌋ % 2 = 0 then ⌊q⌋ else ⌊q⌋ + 1

/-- `round(x, 2)`. -/
def round2 (q : ℚ) : ℚ := (roundHalfEven (q * 100) : ℚ) / 100

/-- Embeds `ClusterSummary.availability_percent`:
`round(online/total*100, 2)`, and `0.0` when `total == 0`. -/
def availability_percent (total_nodes online_nodes : Int) : ℚ :=
  if total_nodes = 0 then 0
  else round2 (((online_nodes : ℚ) / (total_nodes : ℚ)) * 100)

/-- Embeds `ClusterStatus.calculate_health`, evaluated in order on the
rounded availability. -/
def calculate_health (total_nodes online_nodes : Int) : ClusterHealth :=
  if total_nodes = 0 then ClusterHealth.offline
  else if 100 ≤ availability_percent total_nodes online_nodes then ClusterHealth.healthy
  else if 80 ≤ availability_percent total_nodes online_nodes then ClusterHealth.degraded
  else if 0 < availability_percent total_nodes online_nodes then ClusterHealth.critical
  else ClusterHealth.offline

/-- The grade rule exactly as the spec words it (`availability==100` for
healthy), over the same availability figure; compared with
`calculate_health` for the refinement claim. -/
def specGrade (total_nodes online_nodes : Int) : ClusterHealth :=
  if total_nodes = 0 then ClusterHealth.offline
  else if availability_percent total_nodes online_nodes = 100 then ClusterHealth.healthy
  else if 80 ≤ availability_percent total_nodes online_nodes then ClusterHealth.degraded
  else if 0 < availability_percent total_nodes online_nodes then ClusterHealth.critical
  else ClusterHealth.offline

/-! ### Health prober (`health_monitor.py`) -/

inductive NodeHealth where
  | healthy
  | unhealthy
  | unknown
  deriving DecidableEq, Repr

/-- What the bounded TCP handshake against a node observed.  Each
constructor is one `except` arm of `check_node_health` (refused is caught
before the general `OSError`); `elapsed` is the measured wall-clock
milliseconds. -/
inductive ProbeOutcome where
  | connected (elapsed : ℚ)
  | timeout (elapsed : ℚ)
  | refused (elapsed : ℚ)
  | osError (message : String) (elapsed : ℚ)
  | otherExn (message : String) (elapsed : ℚ)
  deriving DecidableEq, Repr

/-- The probe-result record (`models/node.py` `NodeStatus`); the
`last_check_at` wall-clock stamp is omitted. -/
structure NodeStatus where
  node_id : String
  health : NodeHealth
  is_online : Bool
  response_time_ms : Option ℚ
  error_message : Option String
  deriving DecidableEq, Repr

/-- Embeds `HealthMonitor.check_node_health`: the explicit outcome-to-status
policy, one branch per `except` arm. -/
def check_node_health (node : NodeInfo) (outcome : ProbeOutcome) : NodeStatus :=
  match outcome with
  | .connected t =>
    { node_id := node.id, health := .healthy, is_online := true,
      response_time_ms := some (round2 t), error_message := none }
  | .timeout t =>
    { node_id := node.id, health := .unhealthy, is_online := false,
      response_time_ms := some (round2 t), error_message := some "연결 시간 초과" }
  | .refused t =>
    { node_id := node.id, health := .healthy, is_online := true,
      response_time_ms := some (round2 t),
      error_message := some "SSH 포트 연결 거부 (노드는 온라인)" }
  | .osError m t =>
    { node_id := node.id, health := .unhealthy, is_online := false,
      response_time_ms := some (round2 t), error_message := some ("네트워크 오류: " ++ m) }
  | .otherExn m t =>
    { node_id := node.id, health := .unknown, is_online := false,
      response_time_ms := some (round2 t), error_message := some ("알 수 없는 오류: " ++ m) }

/-- Embeds `HealthMonitor.check_all_nodes` after the `asyncio.gather` join:
each node is paired with either its probe outcome (`Sum.inl`) or the text
of an exception the gathered task surfaced (`Sum.inr`), and every item is
converted to a status record independently of the others. -/
def check_all_nodes (items : List (NodeInfo × (ProbeOutcome ⊕ String))) :
    List (NodeInfo × NodeStatus) :=
  items.map (fun it =>
    match it.2 with
    | Sum.inl outcome => (it.1, check_node_health it.1 outcome)
    | Sum.inr exnText =>
      (it.1,
        { node_id := it.1.id, health := .unknown, is_online := false,
          response_time_ms := none,
          error_message := some ("헬스체크 실패: " ++ exnText) }))

/-! ### Instance lifecycle controller (`instance_manager.py`) -/

inductive InstanceStatus where
  | pending
  | running
  | stopped
  | terminated
  | error
  deriving DecidableEq, Repr

def statusText : InstanceStatus → String
  | .pending => "pending"
  | .running => "running"
  | .stopped => "stopped"
  | .terminated => "terminated"
  | .error => "error"

/-- Embeds `models/instance.py` `Instance`; timestamps are abstract ticks
supplied by the caller in place of `datetime.now()`. -/
structure Instance where
  id : String
  name : String
  image : String
  user_id : String
  node_id : String
  port : Int
  cpu : Int
  memory : Int
  status : InstanceStatus
  public_ip : Option String
  container_id : Option String
  created_at : Int
  started_at : Option Int
  stopped_at : Option Int
  deriving DecidableEq, Repr

structure InstanceCreate where
  name : String
  image : String
  cpu : Int
  memory : Int
  deriving DecidableEq, Repr

/-- The typed errors the controller surfaces (`core/exceptions.py` plus the
service-local exception classes). -/
inductive MCError where
  | notFound (instance_id : String)
  | nodeNotFound (node_id : String)
  | quotaExceeded (reason : String)
  | insufficientCapacity (requested_cpu requested_memory max_cpu max_memory : Int)
  | orchestrator (message detail : String)
  | portExhausted (node_id : String)
  deriving DecidableEq, Repr

/-- The persisted world the controller mutates: the users store, the port
store, and the instances store. -/
structure SysState where
  users : Users
  ports : PortData
  instances : List (String × Instance)
  deriving DecidableEq, Repr

/-- Python truthiness of the optional `user_id` argument. -/
def pyTruthy : Option String → Bool
  | none => false
  | some s => !(s == "")

/-- Embeds `InstanceManager.get_instance`: a missing record and a record
owned by someone else raise the same `InstanceNotFoundException(instance_id)`. -/
def get_instance (s : SysState) (instance_id : String) (user_id : Option String) :
    Except MCError Instance :=
  match alookup s.instances instance_id with
  | none => Except.error (MCError.notFound instance_id)
  | some inst =>
    if pyTruthy user_id = true ∧ some inst.user_id ≠ user_id then
      Except.error (MCError.notFound instance_id)
    else Except.ok inst

/-- Embeds `InstanceManager.stop_instance`. -/
def stop_instance (s : SysState) (instance_id user_id : String) (now : Int) :
    Except MCError (SysState × Instance) :=
  match get_instance s instance_id (some user_id) with
  | Except.error e => Except.error e
  | Except.ok inst =>
    if inst.status = InstanceStatus.running ∨ inst.status = InstanceStatus.pending then
      let inst2 := { inst with status := InstanceStatus.stopped, stopped_at := some now }
      Except.ok ({ s with instances := aset s.instances instance_id inst2 }, inst2)
    else
      Except.error (MCError.orchestrator "Cannot stop instance"
        ("Instance is in '" ++ statusText inst.status ++ "' state."))

/-- Embeds `InstanceManager.start_instance`. -/
def start_instance (s : SysState) (instance_id user_id : String) (now : Int) :
    Except MCError (SysState × Instance) :=
  match get_instance s instance_id (some user_id) with
  | Except.error e => Except.error e
  | Except.ok inst =>
    if inst.status = InstanceStatus.stopped then
      let inst2 := { inst with status := InstanceStatus.running,
                               started_at := some now, stopped_at := none }
      Except.ok ({ s with instances := aset s.instances instance_id inst2 }, inst2)
    else
      Except.error (MCError.orchestrator "Cannot start instance"
        ("Instance is in '" ++ statusText inst.status ++ "' state."))

/-- Embeds `InstanceManager.terminate_instance`: release port, release
quota, mark the retained record `terminated`. -/
def terminate_instance (s : SysState) (instance_id user_id : String) :
    Except MCError (SysState × Bool) :=
  match get_instance s instance_id (some user_id) with
  | Except.error e => Except.error e
  | Except.ok inst =>
    let ports2 := (release_port s.ports inst.node_id instance_id).1
    let users2 := (release_resources s.users user_id inst.cpu inst.memory).1
    let inst2 := { inst with status := InstanceStatus.terminated }
    Except.ok ({ users := users2, ports := ports2,
                 instances := aset s.instances instance_id inst2 }, true)

/-- What the deployment collaborator did: `deploy_container` returned
success, returned failure, or raised. -/
inductive DeployOutcome where
  | ok (container_id : String)
  | fail (error : String)
  | exn (message : String)
  deriving DecidableEq, Repr

def deployOk : DeployOutcome → Bool
  | .ok _ => true
  | _ => false

/-- Embeds `InstanceManager.create_instance`.  Environment inputs replace
the collaborators: `nodes` the registry, `feed`/`pick` the capacity query
and fallback choice (§`select_node`), `deploy` the deployment collaborator
outcome, `newId`/`now` the generated id and clock.  Returns the persisted
state after the call together with the result. -/
def create_instance (nodes : List NodeInfo) (feed : Option (List RayNode))
    (pick : Nat) (deploy : DeployOutcome) (newId : String) (now : Int)
    (s : SysState) (user_id : String) (req : InstanceCreate) :
    SysState × Except MCError Instance :=
  if check_quota s.users user_id = false then
    (s, Except.error (MCError.quotaExceeded "Quota exceeded"))
  else
    match select_node nodes feed pick req.cpu req.memory with
    | SelectResult.noWorkers =>
      (s, Except.error (MCError.orchestrator "No available worker nodes"
        "There are no worker nodes registered in the cluster."))
    | SelectResult.insufficient rc rm mc mm =>
      (s, Except.error (MCError.insufficientCapacity rc rm mc mm))
    | SelectResult.ok node_id =>
      match nodes.find? (fun n => n.id == node_id) with
      | none => (s, Except.error (MCError.nodeNotFound node_id))
      | some node =>
        match allocate_port s.ports node_id newId with
        | none => (s, Except.error (MCError.portExhausted node_id))
        | some (ports2, port) =>
          let inst1 : Instance :=
            { id := newId, name := req.name, image := req.image,
              user_id := user_id, node_id := node_id, port := port,
              cpu := req.cpu, memory := req.memory,
              status := InstanceStatus.pending,
              public_ip := some node.tailscale_ip, container_id := none,
              created_at := now, started_at := none, stopped_at := none }
          let users2 := (allocate_resources s.users user_id req.cpu req.memory).1
          match deploy with
          | DeployOutcome.ok cid =>
            let inst2 := { inst1 with status := InstanceStatus.running,
                                      started_at := some now,
                                      container_id := some cid }
            ({ users := users2, ports := ports2,
               instances := aset s.instances newId inst2 }, Except.ok inst2)
          | DeployOutcome.fail err =>
            let users3 := (release_resources users2 user_id req.cpu req.memory).1
            let ports3 := (release_port ports2 node_id newId).1
            ({ users := users3, ports := ports3, instances := s.instances },
             Except.error (MCError.orchestrator "Container deployment failed" err))
          | DeployOutcome.exn msg =>
            let users3 := (release_resources users2 user_id req.cpu req.memory).1
            let ports3 := (release_port ports2 node_id newId).1
            ({ users := users3, ports := ports3, instances := s.instances },
             Except.error (MCError.orchestrator "Container deployment failed" msg))

/-! ### Concrete scenarios used to exercise the operations -/

/-- A worker registry with a single node, for the fallback scenario. -/
def oneWorker : List NodeInfo := [⟨"w1", "ip1", NodeRole.worker⟩]

/-- Two workers whose capacity-feed entries tie on available cpu; the feed
lists the higher-identifier worker first. -/
def tieNodes : List NodeInfo :=
  [⟨"b", "ipb", NodeRole.worker⟩, ⟨"a", "ipa", NodeRole.worker⟩]

def tieFeed : List RayNode := [⟨"ipb", 4, 8⟩, ⟨"ipa", 4, 8⟩]

/-- The spec's W1(cpu=4,mem=8) / W2(cpu=8,mem=16) example. -/
def exNodes : List NodeInfo :=
  [⟨"w1", "ip1", NodeRole.worker⟩, ⟨"w2", "ip2", NodeRole.worker⟩]

def exFeed : List RayNode := [⟨"ip1", 4, 8⟩, ⟨"ip2", 8, 16⟩]

/-- A capacity feed that covers the single worker, for comparing a
capacity-validated placement with the degraded fallback. -/
def okFeed : List RayNode := [⟨"ip1", 8, 16⟩]

/-- Port store states reached by the allocate/release example on node A. -/
def portD1 : PortData := ⟨[("A", [("i1", 8000)])], [("A", 8001)]⟩

def portD2 : PortData := ⟨[("A", [("i1", 8000), ("i2", 8001)])], [("A", 8002)]⟩

def portD3 : PortData :=
  ⟨[("A", [("i1", 8000), ("i2", 8001), ("i3", 8002)])], [("A", 8003)]⟩

def portD3r : PortData :=
  ⟨[("A", [("i1", 8000), ("i3", 8002)])], [("A", 8003)]⟩

def portD4 : PortData :=
  ⟨[("A", [("i1", 8000), ("i3", 8002), ("i4", 8003)])], [("A", 8004)]⟩

/-- The same allocations but with the high-water mark past the range end,
so the next allocation must fall back to the bottom re-scan. -/
def portWrapped : PortData :=
  ⟨[("A", [("i1", 8000), ("i3", 8002)])], [("A", 10000)]⟩

/-- A user holding two live one-cpu / one-GB instances on node n. -/
def twoInstUser : UserQuota := ⟨5, 16, 32, 2, 2, 2⟩

def instOne : Instance :=
  ⟨"i1", "one", "img", "u", "n", 8000, 1, 1, InstanceStatus.running,
   some "ip", some "c1", 0, some 0, none⟩

def instTwo : Instance :=
  ⟨"i2", "two", "img", "u", "n", 8001, 1, 1, InstanceStatus.running,
   some "ip", some "c2", 0, some 0, none⟩

def twoInstState : SysState :=
  ⟨[("u", twoInstUser)],
   ⟨[("n", [("i1", 8000), ("i2", 8001)])], [("n", 8002)]⟩,
   [("i1", instOne), ("i2", instTwo)]⟩

/-- `twoInstState` after the first terminate of i1. -/
def twoInstState1 : SysState :=
  ⟨[("u", ⟨5, 16, 32, 1, 1, 1⟩)],
   ⟨[("n", [("i2", 8001)])], [("n", 8002)]⟩,
   [("i1", { instOne with status := InstanceStatus.terminated }), ("i2", instTwo)]⟩

/-- `twoInstState1` after the second terminate of i1: the quota counters
have been decremented again. -/
def twoInstState2 : SysState :=
  ⟨[("u", ⟨5, 16, 32, 0, 0, 0⟩)],
   ⟨[("n", [("i2", 8001)])], [("n", 8002)]⟩,
   [("i1", { instOne with status := InstanceStatus.terminated }), ("i2", instTwo)]⟩

/-- A user holding exactly one live instance, so its quota counters drop to
zero on the first terminate. -/
def soleInstState : SysState :=
  ⟨[("u", ⟨5, 16, 32, 1, 1, 1⟩)],
   ⟨[("n", [("i1", 8000)])], [("n", 8001)]⟩,
   [("i1", instOne)]⟩

def soleInstState1 : SysState :=
  ⟨[("u", ⟨5, 16, 32, 0, 0, 0⟩)],
   ⟨[("n", [])], [("n", 8001)]⟩,
   [("i1", { instOne with status := InstanceStatus.terminated })]⟩

/-- A fresh user with no instances, used for the create-instance runs. -/
def freshState : SysState := ⟨[("u", ⟨5, 16, 32, 0, 0, 0⟩)], ⟨[], []⟩, []⟩

def createReq : InstanceCreate := ⟨"x", "img", 2, 4⟩

/-- `twoInstState` with instance i1 stopped at tick 9 (what
`stop_instance` produces), the starting point for a start run. -/
def stoppedState : SysState :=
  ⟨[("u", twoInstUser)],
   ⟨[("n", [("i1", 8000), ("i2", 8001)])], [("n", 8002)]⟩,
   [("i1", { instOne with status := InstanceStatus.stopped, stopped_at := some 9 }),
    ("i2", instTwo)]⟩

def stoppedInstOne : Instance :=
  { instOne with status := InstanceStatus.stopped, stopped_at := some 9 }

def restartedInstOne : Instance :=
  { instOne with status := InstanceStatus.running, started_at := some 11 }

/-- `stoppedState` after starting i1 again at tick 11. -/
def restartedState : SysState :=
  ⟨[("u", twoInstUser)],
   ⟨[("n", [("i1", 8000), ("i2", 8001)])], [("n", 8002)]⟩,
   [("i1", restartedInstOne), ("i2", instTwo)]⟩

/-! ## Lemmas about the quota sub-ledger -/

theorem check_quota_true (users : Users) (uid : String) : check_quota users uid = true := by
  unfold check_quota
  cases alookup users uid <;> rfl

theorem usersNonneg_aset (users : Users) (uid : String) (q : UserQuota)
    (h : usersNonneg users)
    (hq : 0 ≤ q.used_instances ∧ 0 ≤ q.used_cpu ∧ 0 ≤ q.used_memory) :
    usersNonneg (aset users uid q) := by
  intro p hp
  rcases mem_aset users uid q p hp with h1 | h1
  · subst h1
    exact hq
  · exact h p h1

theorem allocate_resources_of_none (users : Users) (uid : String) (c m : Int)
    (h : alookup users uid = none) :
    allocate_resources users uid c m = (users, false) := by
  unfold allocate_resources
  rw [h]

theorem allocate_resources_of_some (users : Users) (uid : String) (c m : Int)
    (u : UserQuota) (h : alookup users uid = some u) :
    allocate_resources users uid c m =
      (aset users uid
        { u with
          used_instances := u.used_instances + 1
          used_cpu := u.used_cpu + c
          used_memory := u.used_memory + m }, true) := by
  unfold allocate_resources
  rw [h]

theorem release_resources_of_none (users : Users) (uid : String) (c m : Int)
    (h : alookup users uid = none) :
    release_resources users uid c m = (users, false) := by
  unfold release_resources
  rw [h]

theorem release_resources_of_some (users : Users) (uid : String) (c m : Int)
    (u : UserQuota) (h : alookup users uid = some u) :
    release_resources users uid c m =
      (aset users uid
        { u with
          used_instances := max 0 (u.used_instances - 1)
          used_cpu := max 0 (u.used_cpu - c)
          used_memory := max 0 (u.used_memory - m) }, true) := by
  unfold release_resources
  rw [h]

theorem applyQuotaOp_nonneg (users : Users) (op : QuotaOp)
    (h : usersNonneg users) (hop : opNonneg op) :
    usersNonneg (applyQuotaOp users op) := by
  cases op with
  | alloc uid c m =>
    obtain ⟨hc, hm⟩ := hop
    show usersNonneg (allocate_resources users uid c m).1
    cases halo : alookup users uid with
    | none => rw [allocate_resources_of_none users uid c m halo]; exact h
    | some u =>
      have hu := h (uid, u) (alookup_mem _ _ _ halo)
      simp only at hu
      obtain ⟨h1, h2, h3⟩ := hu
      rw [allocate_resources_of_some users uid c m u halo]
      refine usersNonneg_aset _ _ _ h ⟨?_, ?_, ?_⟩ <;> simp only <;> omega
  | release uid c m =>
    show usersNonneg (release_resources users uid c m).1
    cases halo : alookup users uid with
    | none => rw [release_resources_of_none users uid c m halo]; exact h
    | some u =>
      rw [release_resources_of_some users uid c m u halo]
      refine usersNonneg_aset _ _ _ h ⟨?_, ?_, ?_⟩ <;> simp only <;> omega

theorem release_allocate_roundtrip (users : Users) (uid : String) (c m : Int)
    (h : usersNonneg users) :
    (release_resources (allocate_resources users uid c m).1 uid c m).1 = users := by
  cases halo : alookup users uid with
  | none =>
    rw [allocate_resources_of_none users uid c m halo]
    rw [release_resources_of_none users uid c m halo]
  | some u =>
    have hu := h (uid, u) (alookup_mem _ _ _ halo)
    simp only at hu
    obtain ⟨h1, h2, h3⟩ := hu
    rw [allocate_resources_of_some users uid c m u halo]
    rw [release_resources_of_some _ uid c m _ (alookup_aset_self users uid _)]
    simp only
    have e1 : max 0 (u.used_instances + 1 - 1) = u.used_instances := by omega
    have e2 : max 0 (u.used_cpu + c - c) = u.used_cpu := by omega
    have e3 : max 0 (u.used_memory + m - m) = u.used_memory := by omega
    rw [aset_aset, e1, e2, e3]
    exact aset_lookup_self users uid u halo

/-! ## Lemmas about the port sub-ledger -/

theorem portOf_of_none (d : PortData) (n i : String)
    (h : alookup d.allocations n = none) : portOf d n i = none := by
  unfold portOf
  rw [h]

theorem portOf_of_some (d : PortData) (n i : String) (allocs : List (String × Int))
    (h : alookup d.allocations n = some allocs) : portOf d n i = alookup allocs i := by
  unfold portOf
  rw [h]

theorem release_port_of_node_none (d : PortData) (n i : String)
    (h : alookup d.allocations n = none) : release_port d n i = (d, none) := by
  unfold release_port
  rw [h]

theorem release_port_of_inst_none (d : PortData) (n i : String)
    (allocs : List (String × Int))
    (h1 : alookup d.allocations n = some allocs) (h2 : alookup allocs i = none) :
    release_port d n i = (d, none) := by
  unfold release_port
  rw [h1]
  dsimp only
  rw [h2]

theorem release_port_of_some (d : PortData) (n i : String)
    (allocs : List (String × Int)) (p : Int)
    (h1 : alookup d.allocations n = some allocs) (h2 : alookup allocs i = some p) :
    release_port d n i =
      (⟨aset d.allocations n (aremove allocs i), d.nextPortPerNode⟩, some p) := by
  unfold release_port
  rw [h1]
  dsimp only
  rw [h2]

theorem release_port_portOf_self (d : PortData) (n i : String) :
    portOf (release_port d n i).1 n i = none := by
  cases h1 : alookup d.allocations n with
  | none =>
    rw [release_port_of_node_none d n i h1]
    exact portOf_of_none d n i h1
  | some allocs =>
    cases h2 : alookup allocs i with
    | none =>
      rw [release_port_of_inst_none d n i allocs h1 h2]
      exact (portOf_of_some d n i allocs h1).trans h2
    | some p =>
      rw [release_port_of_some d n i allocs p h1 h2]
      rw [portOf_of_some _ n i _ (alookup_aset_self d.allocations n _)]
      exact alookup_aremove_self allocs i

theorem release_port_noop (d : PortData) (n i : String) (h : portOf d n i = none) :
    (release_port d n i).1 = d := by
  cases h1 : alookup d.allocations n with
  | none => rw [release_port_of_node_none d n i h1]
  | some allocs =>
    rw [portOf_of_some d n i allocs h1] at h
    rw [release_port_of_inst_none d n i allocs h1 h]

theorem allocate_release_port_roundtrip (d : PortData) (nid iid : String)
    (d2 : PortData) (port : Int)
    (hfresh : portOf d nid iid = none)
    (halloc : allocate_port d nid iid = some (d2, port)) :
    ∀ n i, portOf (release_port d2 nid iid).1 n i = portOf d n i := by
  have hshape : d2.allocations =
      aset d.allocations nid
        (aset ((alookup d.allocations nid).getD []) iid port) := by
    simp only [allocate_port] at halloc
    split at halloc
    · simp only [Option.some.injEq, Prod.mk.injEq] at halloc
      obtain ⟨hd, hp⟩ := halloc
      rw [← hd, ← hp]
    · split at halloc
      · exact absurd halloc (by simp)
      · simp only [Option.some.injEq, Prod.mk.injEq] at halloc
        obtain ⟨hd, hp⟩ := halloc
        rw [← hd, ← hp]
  have hrel : (release_port d2 nid iid).1.allocations =
      aset d.allocations nid (aremove ((alookup d.allocations nid).getD []) iid) := by
    have hn2 : alookup d2.allocations nid =
        some (aset ((alookup d.allocations nid).getD []) iid port) := by
      rw [hshape]
      exact alookup_aset_self _ _ _
    rw [release_port_of_some d2 nid iid _ port hn2 (alookup_aset_self _ _ _)]
    rw [hshape, aset_aset, aremove_aset_self]
  intro n i
  by_cases hn : n = nid
  · subst hn
    cases h1 : alookup d.allocations n with
    | none =>
      rw [portOf_of_none d n i h1]
      have : alookup (release_port d2 n iid).1.allocations n = some [] := by
        rw [hrel, h1]
        exact alookup_aset_self _ _ _
      rw [portOf_of_some _ n i [] this]
      rfl
    | some a0 =>
      rw [portOf_of_some d n i a0 h1]
      rw [portOf_of_some d n iid a0 h1] at hfresh
      have : alookup (release_port d2 n iid).1.allocations n = some a0 := by
        rw [hrel, h1]
        simp only [Option.getD_some]
        rw [aremove_of_alookup_none a0 iid hfresh]
        exact alookup_aset_self _ _ _
      rw [portOf_of_some _ n i a0 this]
  · unfold portOf
    rw [hrel, alookup_aset_ne _ _ _ _ hn]

/-! ## Lemmas about the lifecycle operations -/

theorem get_instance_of_absent (s : SysState) (iid : String) (uid : Option String)
    (h : alookup s.instances iid = none) :
    get_instance s iid uid = Except.error (MCError.notFound iid) := by
  unfold get_instance
  rw [h]

theorem get_instance_of_other (s : SysState) (iid : String) (uid : Option String)
    (inst : Instance) (h : alookup s.instances iid = some inst)
    (hcond : pyTruthy uid = true ∧ some inst.user_id ≠ uid) :
    get_instance s iid uid = Except.error (MCError.notFound iid) := by
  unfold get_instance
  rw [h]
  dsimp only
  rw [if_pos hcond]

theorem get_instance_of_owner (s : SysState) (iid : String) (uid : Option String)
    (inst : Instance) (h : alookup s.instances iid = some inst)
    (hcond : ¬(pyTruthy uid = true ∧ some inst.user_id ≠ uid)) :
    get_instance s iid uid = Except.ok inst := by
  unfold get_instance
  rw [h]
  dsimp only
  rw [if_neg hcond]

theorem get_instance_ok_inv (s : SysState) (iid : String) (uid : Option String)
    (inst : Instance) (h : get_instance s iid uid = Except.ok inst) :
    alookup s.instances iid = some inst ∧
      ¬(pyTruthy uid = true ∧ some inst.user_id ≠ uid) := by
  cases hL : alookup s.instances iid with
  | none =>
    rw [get_instance_of_absent s iid uid hL] at h
    exact absurd h (by simp)
  | some inst0 =>
    by_cases hcond : pyTruthy uid = true ∧ some inst0.user_id ≠ uid
    · rw [get_instance_of_other s iid uid inst0 hL hcond] at h
      exact absurd h (by simp)
    · rw [get_instance_of_owner s iid uid inst0 hL hcond] at h
      have hinj : inst0 = inst := by simpa using h
      subst hinj
      exact ⟨rfl, hcond⟩

theorem terminate_instance_of_error (s : SysState) (iid uid : String) (e : MCError)
    (hg : get_instance s iid (some uid) = Except.error e) :
    terminate_instance s iid uid = Except.error e := by
  unfold terminate_instance
  rw [hg]

theorem terminate_instance_of_ok (s : SysState) (iid uid : String) (inst : Instance)
    (hg : get_instance s iid (some uid) = Except.ok inst) :
    terminate_instance s iid uid =
      Except.ok
        (⟨(release_resources s.users uid inst.cpu inst.memory).1,
          (release_port s.ports inst.node_id iid).1,
          aset s.instances iid { inst with status := InstanceStatus.terminated }⟩,
         true) := by
  unfold terminate_instance
  rw [hg]

/-! ## Claims about the quota ledger -/

/-- Claim C5: for every user and every interleaving of quota allocate and
release calls — including releasing the same instance's resources twice —
the used-instances, used-cpu, and used-memory counters never go negative.
(Allocation amounts are non-negative, as the API layer guarantees;
releases are unconstrained.) -/
theorem C5_quota_counters_never_negative (users : Users) (ops : List QuotaOp)
    (h : usersNonneg users) (hops : ∀ op ∈ ops, opNonneg op) :
    usersNonneg (applyQuotaOps users ops) := by
  induction ops generalizing users with
  | nil => simpa [applyQuotaOps] using h
  | cons op t ih =>
    show usersNonneg (List.foldl applyQuotaOp (applyQuotaOp users op) t)
    exact ih (applyQuotaOp users op)
      (applyQuotaOp_nonneg users op h (hops op (by simp)))
      (fun o ho => hops o (by simp [ho]))

/-- Witness for C5: a user allocates, releases, double-releases the same
amounts and allocates again; the counters stay non-negative. -/
theorem C5_quota_counters_never_negative_witness :
    usersNonneg (applyQuotaOps [("u", ⟨5, 16, 32, 0, 0, 0⟩)]
      [QuotaOp.alloc "u" 2 4, QuotaOp.release "u" 2 4,
       QuotaOp.release "u" 2 4, QuotaOp.alloc "u" 1 1]) :=
  C5_quota_counters_never_negative _ _ (by decide) (by decide)

/-! ## Claims about terminate -/

/-- Claim C2 as frozen is false: terminating the same instance twice is not
a no-op on the ledger when the owner still holds other resources.  User u
owns two 1-cpu/1-GB instances; after terminating i1 once the counters are
(1,1,1); the second terminate of i1 decrements them again to (0,0,0). -/
theorem C2_counterexample :
    terminate_instance twoInstState "i1" "u" = Except.ok (twoInstState1, true) ∧
    terminate_instance twoInstState1 "i1" "u" = Except.ok (twoInstState2, true) ∧
    twoInstState2.users ≠ twoInstState1.users :=
  ⟨rfl, rfl, by decide⟩

/-- Claim C2 (amended): a second terminate of the same instance by the
owner leaves the node's port allocations and the instance record unchanged,
but it runs the clamped quota decrement again; it leaves the quota
counters unchanged only when they are already zero (the recorded resource
amounts being non-negative). -/
theorem C2_second_terminate (s : SysState) (iid uid : String)
    (s1 s2 : SysState) (b1 b2 : Bool)
    (h1 : terminate_instance s iid uid = Except.ok (s1, b1))
    (h2 : terminate_instance s1 iid uid = Except.ok (s2, b2)) :
    s2.ports = s1.ports ∧ s2.instances = s1.instances ∧
    ((∀ q, alookup s1.users uid = some q →
        q.used_instances = 0 ∧ q.used_cpu = 0 ∧ q.used_memory = 0) →
      (∀ inst, alookup s1.instances iid = some inst →
        0 ≤ inst.cpu ∧ 0 ≤ inst.memory) →
      s2.users = s1.users) := by
  cases hg1 : get_instance s iid (some uid) with
  | error e =>
    rw [terminate_instance_of_error s iid uid e hg1] at h1
    exact absurd h1 (by simp)
  | ok inst =>
    obtain ⟨hL1, hC1⟩ := get_instance_ok_inv s iid (some uid) inst hg1
    rw [terminate_instance_of_ok s iid uid inst hg1] at h1
    simp only [Except.ok.injEq, Prod.mk.injEq] at h1
    obtain ⟨hs1, hb1⟩ := h1
    subst hs1
    have hL2 : alookup
        (aset s.instances iid { inst with status := InstanceStatus.terminated }) iid =
        some { inst with status := InstanceStatus.terminated } :=
      alookup_aset_self _ _ _
    have hg2 : get_instance
        (⟨(release_resources s.users uid inst.cpu inst.memory).1,
          (release_port s.ports inst.node_id iid).1,
          aset s.instances iid { inst with status := InstanceStatus.terminated }⟩ : SysState)
        iid (some uid) =
        Except.ok { inst with status := InstanceStatus.terminated } :=
      get_instance_of_owner _ _ _ _ hL2 hC1
    rw [terminate_instance_of_ok _ iid uid _ hg2] at h2
    simp only [Except.ok.injEq, Prod.mk.injEq] at h2
    obtain ⟨hs2, hb2⟩ := h2
    subst hs2
    refine ⟨?_, ?_, ?_⟩
    · show (release_port _ _ iid).1 = _
      exact release_port_noop _ _ _ (release_port_portOf_self s.ports inst.node_id iid)
    · show aset _ iid _ = _
      exact aset_lookup_self _ _ _ hL2
    · intro hzero hcm
      show (release_resources _ uid _ _).1 = _
      cases hq : alookup (release_resources s.users uid inst.cpu inst.memory).1 uid with
      | none => rw [release_resources_of_none _ _ _ _ hq]
      | some q =>
        obtain ⟨hz1, hz2, hz3⟩ := hzero q hq
        obtain ⟨hcpu, hmem⟩ := hcm _ hL2
        rw [release_resources_of_some _ _ _ _ q hq]
        simp only
        have e1 : max 0 (q.used_instances - 1) = q.used_instances := by omega
        have e2 : max 0 (q.used_cpu -
            ({ inst with status := InstanceStatus.terminated } : Instance).cpu) =
            q.used_cpu := by
          simp only at hcpu ⊢
          omega
        have e3 : max 0 (q.used_memory -
            ({ inst with status := InstanceStatus.terminated } : Instance).memory) =
            q.used_memory := by
          simp only at hmem ⊢
          omega
        rw [e1, e2, e3]
        exact aset_lookup_self _ _ _ hq

/-- Witness for the amended C2: a user whose only instance is terminated
twice; the second call leaves every ledger component exactly as the first
left it. -/
theorem C2_second_terminate_witness :
    soleInstState1.ports = soleInstState1.ports ∧
    soleInstState1.instances = soleInstState1.instances ∧
    soleInstState1.users = soleInstState1.users :=
  ⟨(C2_second_terminate soleInstState "i1" "u" soleInstState1 soleInstState1
      true true rfl rfl).1,
   (C2_second_terminate soleInstState "i1" "u" soleInstState1 soleInstState1
      true true rfl rfl).2.1,
   (C2_second_terminate soleInstState "i1" "u" soleInstState1 soleInstState1
      true true rfl rfl).2.2 (by decide) (by decide)⟩

/-! ## Claims about ownership and the stop/start frame -/

theorem stop_instance_of_error (s : SysState) (iid uid : String) (now : Int)
    (e : MCError) (hg : get_instance s iid (some uid) = Except.error e) :
    stop_instance s iid uid now = Except.error e := by
  unfold stop_instance
  rw [hg]

theorem start_instance_of_error (s : SysState) (iid uid : String) (now : Int)
    (e : MCError) (hg : get_instance s iid (some uid) = Except.error e) :
    start_instance s iid uid now = Except.error e := by
  unfold start_instance
  rw [hg]

theorem stop_instance_of_ok (s : SysState) (iid uid : String) (now : Int)
    (inst : Instance) (hg : get_instance s iid (some uid) = Except.ok inst)
    (hst : inst.status = InstanceStatus.running ∨ inst.status = InstanceStatus.pending) :
    stop_instance s iid uid now =
      Except.ok
        ({ s with instances := aset s.instances iid ({ inst with status := InstanceStatus.stopped, stopped_at := some now }) },
         { inst with status := InstanceStatus.stopped, stopped_at := some now }) := by
  unfold stop_instance
  rw [hg]
  dsimp only
  rw [if_pos hst]

theorem stop_instance_of_bad_status (s : SysState) (iid uid : String) (now : Int)
    (inst : Instance) (hg : get_instance s iid (some uid) = Except.ok inst)
    (hst : ¬(inst.status = InstanceStatus.running ∨ inst.status = InstanceStatus.pending)) :
    stop_instance s iid uid now =
      Except.error (MCError.orchestrator "Cannot stop instance"
        ("Instance is in '" ++ statusText inst.status ++ "' state.")) := by
  unfold stop_instance
  rw [hg]
  dsimp only
  rw [if_neg hst]

theorem start_instance_of_ok (s : SysState) (iid uid : String) (now : Int)
    (inst : Instance) (hg : get_instance s iid (some uid) = Except.ok inst)
    (hst : inst.status = InstanceStatus.stopped) :
    start_instance s iid uid now =
      Except.ok
        ({ s with instances := aset s.instances iid ({ inst with status := InstanceStatus.running, started_at := some now, stopped_at := none }) },
         { inst with status := InstanceStatus.running,
                     started_at := some now, stopped_at := none }) := by
  unfold start_instance
  rw [hg]
  dsimp only
  rw [if_pos hst]

theorem start_instance_of_bad_status (s : SysState) (iid uid : String) (now : Int)
    (inst : Instance) (hg : get_instance s iid (some uid) = Except.ok inst)
    (hst : ¬ inst.status = InstanceStatus.stopped) :
    start_instance s iid uid now =
      Except.error (MCError.orchestrator "Cannot start instance"
        ("Instance is in '" ++ statusText inst.status ++ "' state.")) := by
  unfold start_instance
  rw [hg]
  dsimp only
  rw [if_neg hst]

/-- Claim C9: for an instance owned by user a, any of get / stop / start /
terminate invoked by a different (non-empty) user b yields exactly the
same not-found error — carrying the requested id — as the same operation
on a state where that id does not exist at all. -/
theorem C9_ownership_not_distinguished (s sAbs : SysState) (iid a b : String)
    (inst : Instance) (now : Int)
    (hmem : alookup s.instances iid = some inst) (howner : inst.user_id = a)
    (hne : b ≠ a) (hb : b ≠ "")
    (habs : alookup sAbs.instances iid = none) :
    get_instance s iid (some b) = Except.error (MCError.notFound iid) ∧
    get_instance sAbs iid (some b) = Except.error (MCError.notFound iid) ∧
    stop_instance s iid b now = Except.error (MCError.notFound iid) ∧
    stop_instance sAbs iid b now = Except.error (MCError.notFound iid) ∧
    start_instance s iid b now = Except.error (MCError.notFound iid) ∧
    start_instance sAbs iid b now = Except.error (MCError.notFound iid) ∧
    terminate_instance s iid b = Except.error (MCError.notFound iid) ∧
    terminate_instance sAbs iid b = Except.error (MCError.notFound iid) := by
  have hcond : pyTruthy (some b) = true ∧ some inst.user_id ≠ some b := by
    constructor
    · simp [pyTruthy, hb]
    · rw [howner]
      simp
      exact Ne.symm hne
  have hgo := get_instance_of_other s iid (some b) inst hmem hcond
  have hga := get_instance_of_absent sAbs iid (some b) habs
  exact ⟨hgo, hga,
    stop_instance_of_error s iid b now _ hgo,
    stop_instance_of_error sAbs iid b now _ hga,
    start_instance_of_error s iid b now _ hgo,
    start_instance_of_error sAbs iid b now _ hga,
    terminate_instance_of_error s iid b _ hgo,
    terminate_instance_of_error sAbs iid b _ hga⟩

/-- Witness for C9: user v probes user u's instance i1 and a state where
i1 does not exist; every operation reports the same not-found error. -/
theorem C9_ownership_not_distinguished_witness :
    get_instance twoInstState "i1" (some "v") =
      Except.error (MCError.notFound "i1") ∧
    get_instance freshState "i1" (some "v") =
      Except.error (MCError.notFound "i1") ∧
    stop_instance twoInstState "i1" "v" 3 = Except.error (MCError.notFound "i1") ∧
    stop_instance freshState "i1" "v" 3 = Except.error (MCError.notFound "i1") ∧
    start_instance twoInstState "i1" "v" 3 = Except.error (MCError.notFound "i1") ∧
    start_instance freshState "i1" "v" 3 = Except.error (MCError.notFound "i1") ∧
    terminate_instance twoInstState "i1" "v" = Except.error (MCError.notFound "i1") ∧
    terminate_instance freshState "i1" "v" = Except.error (MCError.notFound "i1") :=
  C9_ownership_not_distinguished twoInstState freshState "i1" "u" "v" instOne 3
    rfl rfl (by decide) (by decide) rfl

/-- Claim C10: stop and start mutate only the targeted instance record —
status plus started/stopped timestamps — leaving the user quota store, the
port store, and every other instance record untouched; in particular the
embedded stop and start take no deployment, port, or quota step. -/
theorem C10_stop_start_frame :
    (∀ (s : SysState) (iid uid : String) (now : Int) (s2 : SysState) (inst2 : Instance),
      stop_instance s iid uid now = Except.ok (s2, inst2) →
      s2.users = s.users ∧ s2.ports = s.ports ∧
      (∀ j, j ≠ iid → alookup s2.instances j = alookup s.instances j) ∧
      ∃ inst, alookup s.instances iid = some inst ∧
        alookup s2.instances iid = some inst2 ∧
        inst2 = { inst with status := InstanceStatus.stopped, stopped_at := some now }) ∧
    (∀ (s : SysState) (iid uid : String) (now : Int) (s2 : SysState) (inst2 : Instance),
      start_instance s iid uid now = Except.ok (s2, inst2) →
      s2.users = s.users ∧ s2.ports = s.ports ∧
      (∀ j, j ≠ iid → alookup s2.instances j = alookup s.instances j) ∧
      ∃ inst, alookup s.instances iid = some inst ∧
        alookup s2.instances iid = some inst2 ∧
        inst2 = { inst with status := InstanceStatus.running,
                            started_at := some now, stopped_at := none }) := by
  constructor
  · intro s iid uid now s2 inst2 h
    cases hg : get_instance s iid (some uid) with
    | error e =>
      rw [stop_instance_of_error s iid uid now e hg] at h
      exact absurd h (by simp)
    | ok inst =>
      by_cases hst : inst.status = InstanceStatus.running ∨
          inst.status = InstanceStatus.pending
      · rw [stop_instance_of_ok s iid uid now inst hg hst] at h
        simp only [Except.ok.injEq, Prod.mk.injEq] at h
        obtain ⟨hs2, hi2⟩ := h
        subst hs2
        subst hi2
        obtain ⟨hL, -⟩ := get_instance_ok_inv s iid (some uid) inst hg
        exact ⟨rfl, rfl, fun j hj => alookup_aset_ne _ _ _ _ hj,
          inst, hL, alookup_aset_self _ _ _, rfl⟩
      · rw [stop_instance_of_bad_status s iid uid now inst hg hst] at h
        exact absurd h (by simp)
  · intro s iid uid now s2 inst2 h
    cases hg : get_instance s iid (some uid) with
    | error e =>
      rw [start_instance_of_error s iid uid now e hg] at h
      exact absurd h (by simp)
    | ok inst =>
      by_cases hst : inst.status = InstanceStatus.stopped
      · rw [start_instance_of_ok s iid uid now inst hg hst] at h
        simp only [Except.ok.injEq, Prod.mk.injEq] at h
        obtain ⟨hs2, hi2⟩ := h
        subst hs2
        subst hi2
        obtain ⟨hL, -⟩ := get_instance_ok_inv s iid (some uid) inst hg
        exact ⟨rfl, rfl, fun j hj => alookup_aset_ne _ _ _ _ hj,
          inst, hL, alookup_aset_self _ _ _, rfl⟩
      · rw [start_instance_of_bad_status s iid uid now inst hg hst] at h
        exact absurd h (by simp)

/-- Witness for C10: stopping running i1 and then starting it again mutates
only i1's record, leaving quota, ports and instance i2 untouched. -/
theorem C10_stop_start_frame_witness :
    (stoppedState.users = twoInstState.users ∧ stoppedState.ports = twoInstState.ports ∧
      (∀ j, j ≠ "i1" →
        alookup stoppedState.instances j = alookup twoInstState.instances j) ∧
      ∃ inst, alookup twoInstState.instances "i1" = some inst ∧
        alookup stoppedState.instances "i1" = some stoppedInstOne ∧
        stoppedInstOne = { inst with status := InstanceStatus.stopped,
                                     stopped_at := some 9 }) ∧
    (restartedState.users = stoppedState.users ∧
      restartedState.ports = stoppedState.ports ∧
      (∀ j, j ≠ "i1" →
        alookup restartedState.instances j = alookup stoppedState.instances j) ∧
      ∃ inst, alookup stoppedState.instances "i1" = some inst ∧
        alookup restartedState.instances "i1" = some restartedInstOne ∧
        restartedInstOne = { inst with status := InstanceStatus.running,
                                       started_at := some 11, stopped_at := none }) :=
  ⟨C10_stop_start_frame.1 twoInstState "i1" "u" 9 stoppedState stoppedInstOne rfl,
   C10_stop_start_frame.2 stoppedState "i1" "u" 11 restartedState restartedInstOne rfl⟩

/-! ## Claims about the health prober -/

/-- Claim C8: the single-node probe maps each observed outcome to exactly
the specified status — success and active refusal are healthy/online with
the (rounded) latency recorded, timeout and other transport errors are
unhealthy/offline, an unexpected internal fault is unknown/offline with
the error captured — and a faulted probe task still yields a status record
in place, leaving the rest of the batch intact. -/
theorem C8_probe_outcome_policy :
    (∀ (node : NodeInfo) (t : ℚ),
      check_node_health node (ProbeOutcome.connected t) =
        ⟨node.id, NodeHealth.healthy, true, some (round2 t), none⟩) ∧
    (∀ (node : NodeInfo) (t : ℚ),
      check_node_health node (ProbeOutcome.refused t) =
        ⟨node.id, NodeHealth.healthy, true, some (round2 t),
         some "SSH 포트 연결 거부 (노드는 온라인)"⟩) ∧
    (∀ (node : NodeInfo) (t : ℚ),
      check_node_health node (ProbeOutcome.timeout t) =
        ⟨node.id, NodeHealth.unhealthy, false, some (round2 t), some "연결 시간 초과"⟩) ∧
    (∀ (node : NodeInfo) (m : String) (t : ℚ),
      check_node_health node (ProbeOutcome.osError m t) =
        ⟨node.id, NodeHealth.unhealthy, false, some (round2 t),
         some ("네트워크 오류: " ++ m)⟩) ∧
    (∀ (node : NodeInfo) (m : String) (t : ℚ),
      check_node_health node (ProbeOutcome.otherExn m t) =
        ⟨node.id, NodeHealth.unknown, false, some (round2 t),
         some ("알 수 없는 오류: " ++ m)⟩) ∧
    (∀ items, (check_all_nodes items).length = items.length) ∧
    (∀ (pre post : List (NodeInfo × (ProbeOutcome ⊕ String)))
        (node : NodeInfo) (exnText : String),
      check_all_nodes (pre ++ (node, Sum.inr exnText) :: post) =
        check_all_nodes pre ++
          (node, ⟨node.id, NodeHealth.unknown, false, none,
                  some ("헬스체크 실패: " ++ exnText)⟩) :: check_all_nodes post) := by
  refine ⟨fun n t => rfl, fun n t => rfl, fun n t => rfl,
    fun n m t => rfl, fun n m t => rfl, fun items => ?_, fun pre post node e => ?_⟩
  · simp [check_all_nodes]
  · simp [check_all_nodes]

/-! ## Claims about the scheduler -/

/-- Claim C6 as frozen is false in its observability part: the degraded
random fallback returns a bare node id, bit-for-bit identical to a
capacity-validated placement — here the same `ok "w1"` results from a
feed error and from a healthy feed. -/
theorem C6_counterexample :
    select_node oneWorker none 0 2 4 = SelectResult.ok "w1" ∧
    select_node oneWorker (some okFeed) 0 2 4 = SelectResult.ok "w1" ∧
    select_node oneWorker none 0 2 4 = select_node oneWorker (some okFeed) 0 2 4 :=
  ⟨rfl, rfl, rfl⟩

/-- Claim C6 (amended): when the capacity query raises, the scheduler falls
back to a choice among the registered workers (uniform via
`random.choice`), but only logs the degraded mode — the result is a plain
node id carrying no flag; and a feed that is merely unreachable yields an
empty feed and `InsufficientCapacity(req, 0, 0)` instead of the fallback. -/
theorem C6_fallback (nodes : List NodeInfo) (pick : Nat) (reqCpu reqMem : Int)
    (w : NodeInfo) (ws : List NodeInfo)
    (hw : nodes.filter (fun n => decide (n.role = NodeRole.worker)) = w :: ws) :
    (∃ v ∈ w :: ws, select_node nodes none pick reqCpu reqMem = SelectResult.ok v.id) ∧
    select_node nodes (some []) pick reqCpu reqMem =
      SelectResult.insufficient reqCpu reqMem 0 0 := by
  constructor
  · refine ⟨(w :: ws).get ⟨pick % (w :: ws).length,
      Nat.mod_lt pick (Nat.succ_pos ws.length)⟩, List.get_mem _ _ _, ?_⟩
    unfold select_node
    rw [hw]
  · unfold select_node
    rw [hw]
    rfl

/-- Witness for the amended C6: with one registered worker, the fallback
run returns that worker's id and the empty-feed run reports
insufficient capacity with zero maxima. -/
theorem C6_fallback_witness :
    (∃ v ∈ [(⟨"w1", "ip1", NodeRole.worker⟩ : NodeInfo)],
      select_node oneWorker none 0 2 4 = SelectResult.ok v.id) ∧
    select_node oneWorker (some []) 0 2 4 = SelectResult.insufficient 2 4 0 0 :=
  C6_fallback oneWorker 0 2 4 ⟨"w1", "ip1", NodeRole.worker⟩ [] rfl

/-! ## Python `max(..., key=...)` keeps the first maximal element -/

theorem pyFold_cons {α : Type} (key : α → Int) (b a : α) (l : List α) :
    pyFold key b (a :: l) = pyFold key (if key b < key a then a else b) l := rfl

theorem le_key_pyFold {α : Type} (key : α → Int) (l : List α) :
    ∀ b, key b ≤ key (pyFold key b l) := by
  induction l with
  | nil => intro b; exact le_refl _
  | cons a t ih =>
    intro b
    rw [pyFold_cons]
    refine le_trans ?_ (ih _)
    by_cases h : key b < key a
    · rw [if_pos h]
      exact le_of_lt h
    · rw [if_neg h]

theorem mem_le_key_pyFold {α : Type} (key : α → Int) (l : List α) :
    ∀ b, ∀ a ∈ l, key a ≤ key (pyFold key b l) := by
  induction l with
  | nil => intro b a ha; simp at ha
  | cons c t ih =>
    intro b a ha
    rw [pyFold_cons]
    rcases List.mem_cons.mp ha with h | h
    · subst h
      refine le_trans ?_ (le_key_pyFold key t _)
      by_cases hbc : key b < key a
      · rw [if_pos hbc]
      · rw [if_neg hbc]
        exact le_of_not_lt hbc
    · exact ih _ a h

theorem pyFold_eq_or_mem {α : Type} (key : α → Int) (l : List α) :
    ∀ b, pyFold key b l = b ∨ pyFold key b l ∈ l := by
  induction l with
  | nil => intro b; exact Or.inl rfl
  | cons a t ih =>
    intro b
    rw [pyFold_cons]
    by_cases hba : key b < key a
    · rw [if_pos hba]
      rcases ih a with h | h
      · refine Or.inr ?_
        rw [h]
        exact List.mem_cons_self a t
      · exact Or.inr (List.mem_cons_of_mem a h)
    · rw [if_neg hba]
      rcases ih b with h | h
      · exact Or.inl h
      · exact Or.inr (List.mem_cons_of_mem a h)

theorem pyFold_find {α : Type} (key : α → Int) (l : List α) :
    ∀ b, (b :: l).find? (fun x => key x == key (pyFold key b l)) =
      some (pyFold key b l) := by
  induction l with
  | nil =>
    intro b
    simp [pyFold, List.find?]
  | cons a t ih =>
    intro b
    rw [pyFold_cons]
    by_cases hba : key b < key a
    · rw [if_pos hba]
      have hlt : key b < key (pyFold key a t) :=
        lt_of_lt_of_le hba (le_key_pyFold key t a)
      have hfb : ¬((fun x => key x == key (pyFold key a t)) b = true) := by
        simp
        exact ne_of_lt hlt
      rw [List.find?_cons_of_neg (p := fun x => key x == key (pyFold key a t)) _ hfb]
      exact ih a
    · rw [if_neg hba]
      by_cases hbm : key b = key (pyFold key b t)
      · have hpb : (fun x => key x == key (pyFold key b t)) b = true := by
          simp [hbm]
        have h1 := List.find?_cons_of_pos (p := fun x => key x == key (pyFold key b t)) t hpb
        have hfind := ih b
        rw [h1] at hfind
        have hbm2 : b = pyFold key b t := by simpa using hfind
        rw [List.find?_cons_of_pos (p := fun x => key x == key (pyFold key b t)) _ hpb]
        exact congrArg some hbm2
      · have hblt : key b < key (pyFold key b t) :=
          lt_of_le_of_ne (le_key_pyFold key t b) hbm
        have hfb : ¬((fun x => key x == key (pyFold key b t)) b = true) := by
          simp
          exact hbm
        have hfa : ¬((fun x => key x == key (pyFold key b t)) a = true) := by
          simp
          exact ne_of_lt (lt_of_le_of_lt (le_of_not_lt hba) hblt)
        have hfind := ih b
        rw [List.find?_cons_of_neg (p := fun x => key x == key (pyFold key b t)) _ hfb]
          at hfind
        rw [List.find?_cons_of_neg (p := fun x => key x == key (pyFold key b t)) _ hfb,
          List.find?_cons_of_neg (p := fun x => key x == key (pyFold key b t)) _ hfa]
        exact hfind

/-- Claim C4 as frozen is false in its tie-breaking part: with two workers
a and b tied on available cpu (both satisfy the request), the code's
`max(..., key=...)` keeps the first feed entry, here worker b, not the
lowest node identifier a. -/
theorem C4_counterexample :
    buildCapable tieNodes tieFeed 2 4 =
      [⟨⟨"b", "ipb", NodeRole.worker⟩, 4, 8⟩, ⟨⟨"a", "ipa", NodeRole.worker⟩, 4, 8⟩] ∧
    select_node tieNodes (some tieFeed) 0 2 4 = SelectResult.ok "b" ∧
    SelectResult.ok "b" ≠ SelectResult.ok "a" :=
  ⟨rfl, rfl, by decide⟩

/-- Claim C4 (amended): when some registered worker maps to a feed entry
satisfying the request, selection returns the worker of a surviving feed
entry with the greatest available cpu; ties are broken by the earliest such
entry in the capacity-feed order (the chosen entry is the first one
carrying the maximal cpu), not by lowest node identifier. -/
theorem C4_select_max_cpu (nodes : List NodeInfo) (ray : List RayNode) (pick : Nat)
    (reqCpu reqMem : Int) (w : NodeInfo) (ws : List NodeInfo)
    (hw : nodes.filter (fun n => decide (n.role = NodeRole.worker)) = w :: ws)
    (c : Capable) (cs : List Capable)
    (hcap : buildCapable (w :: ws) ray reqCpu reqMem = c :: cs) :
    ∃ best,
      select_node nodes (some ray) pick reqCpu reqMem = SelectResult.ok best.worker.id ∧
      best ∈ c :: cs ∧
      (∀ x ∈ c :: cs, x.cpu_available ≤ best.cpu_available) ∧
      (c :: cs).find? (fun x => x.cpu_available == best.cpu_available) = some best := by
  refine ⟨pyFold (fun x => x.cpu_available) c cs, ?_, ?_, ?_, ?_⟩
  · unfold select_node
    rw [hw]
    dsimp only
    rw [hcap]
    rfl
  · rcases pyFold_eq_or_mem (fun x => x.cpu_available) cs c with h | h
    · rw [h]
      exact List.mem_cons_self c cs
    · exact List.mem_cons_of_mem c h
  · intro x hx
    rcases List.mem_cons.mp hx with h | h
    · subst h
      exact le_key_pyFold (fun y => y.cpu_available) cs x
    · exact mem_le_key_pyFold (fun y => y.cpu_available) cs c x h
  · exact pyFold_find (fun x => x.cpu_available) cs c

set_option maxRecDepth 8192 in
/-- Witness for the amended C4: the spec's own example W1(4,8), W2(8,16)
with request (2,4); the surviving entry with the greatest cpu is W2 and the
selection returns w2. -/
theorem C4_select_max_cpu_witness :
    (∃ best,
      select_node exNodes (some exFeed) 0 2 4 = SelectResult.ok best.worker.id ∧
      best ∈ [(⟨⟨"w1", "ip1", NodeRole.worker⟩, 4, 8⟩ : Capable),
              ⟨⟨"w2", "ip2", NodeRole.worker⟩, 8, 16⟩] ∧
      (∀ x ∈ [(⟨⟨"w1", "ip1", NodeRole.worker⟩, 4, 8⟩ : Capable),
              ⟨⟨"w2", "ip2", NodeRole.worker⟩, 8, 16⟩],
        x.cpu_available ≤ best.cpu_available) ∧
      [(⟨⟨"w1", "ip1", NodeRole.worker⟩, 4, 8⟩ : Capable),
       ⟨⟨"w2", "ip2", NodeRole.worker⟩, 8, 16⟩].find?
          (fun x => x.cpu_available == best.cpu_available) = some best) ∧
    select_node exNodes (some exFeed) 0 2 4 = SelectResult.ok "w2" :=
  ⟨C4_select_max_cpu exNodes exFeed 0 2 4 ⟨"w1", "ip1", NodeRole.worker⟩
      [⟨"w2", "ip2", NodeRole.worker⟩] rfl ⟨⟨"w1", "ip1", NodeRole.worker⟩, 4, 8⟩
      [⟨⟨"w2", "ip2", NodeRole.worker⟩, 8, 16⟩] rfl,
   rfl⟩

/-! ## Claims about the port allocator -/

/-- Claim C3 as frozen is false: after allocations 8000-8002 on node A and
releasing the instance holding 8001, the next allocation continues from
the high-water mark and returns 8003, not the freed 8001. -/
theorem C3_counterexample :
    allocate_port ⟨[], []⟩ "A" "i1" = some (portD1, 8000) ∧
    allocate_port portD1 "A" "i2" = some (portD2, 8001) ∧
    allocate_port portD2 "A" "i3" = some (portD3, 8002) ∧
    release_port portD3 "A" "i2" = (portD3r, some 8001) ∧
    allocate_port portD3r "A" "i4" = some (portD4, 8003) ∧
    (8003 : Int) ≠ 8001 :=
  ⟨rfl, rfl, rfl, rfl, rfl, by decide⟩

set_option maxRecDepth 8192 in
/-- Claim C3 (amended): a released port is reclaimed but not reused while
the upward scan from the node's high-water mark still finds a free port in
range: the example run returns 8003 and leaves 8001 unassigned.  The freed
gap is taken by the bottom re-scan only once the high-water scan runs past
9999: the same allocations with the mark at 10000 yield 8001. -/
theorem C3_high_water_before_reuse :
    allocate_port portD3r "A" "i4" = some (portD4, 8003) ∧
    portOf portD4 "A" "i2" = none ∧
    ((alookup portD4.allocations "A").getD []).map Prod.snd = [8000, 8002, 8003] ∧
    allocate_port portWrapped "A" "i9" =
      some (⟨[("A", [("i1", 8000), ("i3", 8002), ("i9", 8001)])], [("A", 8002)]⟩, 8001) :=
  ⟨rfl, rfl, rfl, rfl⟩

/-! ## Claims about the cluster aggregator -/

theorem roundHalfEven_le_of_le (q : ℚ) (n : Int) (h : q ≤ (n : ℚ)) :
    roundHalfEven q ≤ n := by
  unfold roundHalfEven
  have hf : ⌊q⌋ ≤ n := by
    have h2 := Int.floor_le_floor h
    simpa using h2
  by_cases h1 : q - ⌊q⌋ < 1 / 2
  · rw [if_pos h1]
    exact hf
  · rw [if_neg h1]
    push_neg at h1
    have hlt : ⌊q⌋ < n := by
      rcases lt_or_eq_of_le hf with h2 | h2
      · exact h2
      · exfalso
        rw [h2] at h1
        have hq : q - (n : ℚ) ≤ 0 := by linarith
        linarith
    by_cases h2 : 1 / 2 < q - ⌊q⌋
    · rw [if_pos h2]
      omega
    · rw [if_neg h2]
      by_cases h3 : ⌊q⌋ % 2 = 0
      · rw [if_pos h3]
        exact hf
      · rw [if_neg h3]
        omega

theorem availability_percent_le_100 (t o : Int) (h0 : 0 ≤ o) (ht : o ≤ t)
    (hne : t ≠ 0) : availability_percent t o ≤ 100 := by
  unfold availability_percent round2
  rw [if_neg hne]
  rw [div_le_iff₀ (by norm_num : (0 : ℚ) < 100)]
  have htpos : (0 : ℚ) < (t : ℚ) := by
    have h1 : 0 < t := by omega
    exact_mod_cast h1
  have hdiv : (o : ℚ) / (t : ℚ) ≤ 1 := by
    rw [div_le_one htpos]
    exact_mod_cast ht
  have harg : (o : ℚ) / (t : ℚ) * 100 * 100 ≤ ((10000 : Int) : ℚ) := by
    push_cast
    nlinarith [hdiv]
  have hr := roundHalfEven_le_of_le _ 10000 harg
  calc ((roundHalfEven ((o : ℚ) / (t : ℚ) * 100 * 100) : Int) : ℚ)
      ≤ ((10000 : Int) : ℚ) := by exact_mod_cast hr
    _ = 100 * 100 := by norm_num

/-- Claim C7 as frozen is false in its availability figures: the code
rounds `online/total*100` to two decimals, so 14 of 17 online yields
82.35 — not the claimed 82.4, and not the exact ratio. -/
theorem C7_counterexample :
    availability_percent 17 14 = 8235 / 100 ∧
    (8235 / 100 : ℚ) ≠ 824 / 10 ∧
    availability_percent 17 14 ≠ (14 : ℚ) / 17 * 100 := by
  refine ⟨?_, by norm_num, ?_⟩
  · norm_num [availability_percent, round2, roundHalfEven]
  · norm_num [availability_percent, round2, roundHalfEven]

/-- Claim C7 (amended): availability is `online/total*100` rounded to two
decimals (0 when total = 0), and the grade follows the ordered rule
total==0 → offline; availability==100 → healthy; ≥80 → degraded;
>0 → critical; else offline — the code's `availability >= 100` test
coincides with the spec's `== 100` because availability never exceeds 100
when online ≤ total.  At 17 nodes: 17 online is healthy at 100%, 14 online
degraded at 82.35%, 10 online critical, 0 online offline. -/
theorem C7_aggregate_grade (t o : Int) (h0 : 0 ≤ o) (ht : o ≤ t) :
    calculate_health t o = specGrade t o := by
  unfold calculate_health specGrade
  by_cases hz : t = 0
  · rw [if_pos hz, if_pos hz]
  · rw [if_neg hz, if_neg hz]
    have hle := availability_percent_le_100 t o h0 ht hz
    by_cases h1 : (100 : ℚ) ≤ availability_percent t o
    · have heq : availability_percent t o = 100 := le_antisymm hle h1
      rw [if_pos h1, if_pos heq]
    · have hne2 : ¬(availability_percent t o = 100) := by
        intro hh
        exact h1 (le_of_eq hh.symm)
      rw [if_neg h1, if_neg hne2]

/-- Witness for the amended C7: the four example snapshots of a 17-node
cluster, with the exact availability figures the code computes. -/
theorem C7_aggregate_grade_witness :
    calculate_health 17 14 = specGrade 17 14 ∧
    availability_percent 17 17 = 100 ∧
    calculate_health 17 17 = ClusterHealth.healthy ∧
    availability_percent 17 14 = 8235 / 100 ∧
    calculate_health 17 14 = ClusterHealth.degraded ∧
    calculate_health 17 10 = ClusterHealth.critical ∧
    calculate_health 17 0 = ClusterHealth.offline := by
  refine ⟨C7_aggregate_grade 17 14 (by norm_num) (by norm_num), ?_, ?_, ?_, ?_, ?_, ?_⟩ <;>
    norm_num [calculate_health, availability_percent, round2, roundHalfEven]

/-! ## Claim about create-instance rollback -/

/-- Claim C1: when the create sequence reaches the deployment step (node
selected, node record found, port allocated) and the deployment
collaborator does not succeed — failure result or exception — the call
surfaces a deployment-failure error, the user quota counters are exactly
as before the call, every port allocation reads as before the call, and
the instances store is untouched (so the instance is never persisted, in
particular not as running). -/
theorem C1_create_rollback (nodes : List NodeInfo) (feed : Option (List RayNode))
    (pick : Nat) (deploy : DeployOutcome) (newId : String) (now : Int)
    (s : SysState) (uid : String) (req : InstanceCreate)
    (hdep : deployOk deploy = false)
    (hnn : usersNonneg s.users)
    (nid : String)
    (hsel : select_node nodes feed pick req.cpu req.memory = SelectResult.ok nid)
    (node : NodeInfo) (hnode : nodes.find? (fun n => n.id == nid) = some node)
    (d2 : PortData) (port : Int)
    (halloc : allocate_port s.ports nid newId = some (d2, port))
    (hfresh : portOf s.ports nid newId = none) :
    ∃ detail,
      (create_instance nodes feed pick deploy newId now s uid req).2 =
        Except.error (MCError.orchestrator "Container deployment failed" detail) ∧
      (create_instance nodes feed pick deploy newId now s uid req).1.users = s.users ∧
      (∀ n i, portOf (create_instance nodes feed pick deploy newId now s uid req).1.ports n i =
        portOf s.ports n i) ∧
      (create_instance nodes feed pick deploy newId now s uid req).1.instances =
        s.instances := by
  have hqc : ¬(check_quota s.users uid = false) := by
    rw [check_quota_true]
    simp
  unfold create_instance
  rw [if_neg hqc, hsel]
  dsimp only
  rw [hnode]
  dsimp only
  rw [halloc]
  dsimp only
  cases deploy with
  | ok cid => simp [deployOk] at hdep
  | fail err =>
    exact ⟨err, rfl, release_allocate_roundtrip s.users uid req.cpu req.memory hnn,
      allocate_release_port_roundtrip s.ports nid newId d2 port hfresh halloc, rfl⟩
  | exn msg =>
    exact ⟨msg, rfl, release_allocate_roundtrip s.users uid req.cpu req.memory hnn,
      allocate_release_port_roundtrip s.ports nid newId d2 port hfresh halloc, rfl⟩

set_option maxRecDepth 8192 in
/-- Witness for C1: a fresh user creates an instance on the single worker;
deployment fails; the call reports the failure and the resulting state
shows the quota, port, and instance stores as they were. -/
theorem C1_create_rollback_witness :
    ∃ detail,
      (create_instance oneWorker (some okFeed) 0 (DeployOutcome.fail "boom")
        "i1" 7 freshState "u" createReq).2 =
        Except.error (MCError.orchestrator "Container deployment failed" detail) ∧
      (create_instance oneWorker (some okFeed) 0 (DeployOutcome.fail "boom")
        "i1" 7 freshState "u" createReq).1.users = freshState.users ∧
      (∀ n i, portOf (create_instance oneWorker (some okFeed) 0 (DeployOutcome.fail "boom")
        "i1" 7 freshState "u" createReq).1.ports n i = portOf freshState.ports n i) ∧
      (create_instance oneWorker (some okFeed) 0 (DeployOutcome.fail "boom")
        "i1" 7 freshState "u" createReq).1.instances = freshState.instances :=
  C1_create_rollback oneWorker (some okFeed) 0 (DeployOutcome.fail "boom") "i1" 7
    freshState "u" createReq rfl (by decide) "w1" rfl
    ⟨"w1", "ip1", NodeRole.worker⟩ rfl
    ⟨[("w1", [("i1", 8000)])], [("w1", 8001)]⟩ 8000 rfl rfl

end MCP
